import Mathlib

/-!
Verification of the PulseAI heuristic protocol classifier.

Shallow embedding of the CSV-heuristics pipeline of `src/public/script.js`
(`detectCSVFormat`, `analyzeChannels`, `detectProtocol`,
`getEnhancedMockAnalysis`) and of the variant in `src/functions/server.js`
(namespace `FnsServer`).  JavaScript strings are modelled as Lean `String`;
the handful of JS string primitives used by the source (`split` on a single
character, `trim`, `toLowerCase`, `includes`, `replace(/["']/g,'')`) are
given explicit executable models below.
-/

/-- characters treated as whitespace by the model of `String.prototype.trim`. -/
def isWS (c : Char) : Bool :=
  c == ' ' || c == '\t' || c == '\n' || c == '\r'

/-- model of JavaScript `s.trim()`: drop whitespace from both ends. -/
def jsTrim (s : String) : String :=
  String.mk (((s.data.dropWhile isWS).reverse.dropWhile isWS).reverse)

/-- split a character list at every occurrence of `sep` (JS `s.split(sep)`
on a one-character separator; splitting the empty string yields `[""]`). -/
def splitCharList (sep : Char) : List Char → List (List Char)
  | [] => [[]]
  | c :: rest =>
    let r := splitCharList sep rest
    if c == sep then
      [] :: r
    else
      match r with
      | [] => [[c]]
      | h :: t => (c :: h) :: t

/-- model of JavaScript `s.split(sep)` for a one-character separator. -/
def jsSplit (sep : Char) (s : String) : List String :=
  (splitCharList sep s.data).map String.mk

/-- pattern `pat` occurs at the start of `l`. -/
def leadsWith (pat l : List Char) : Bool :=
  match pat with
  | [] => true
  | p :: ps =>
    match l with
    | [] => false
    | c :: cs => if p == c then leadsWith ps cs else false

/-- pattern `pat` occurs somewhere inside `l` (JS `s.includes(pat)`). -/
def containsSeq (pat : List Char) : List Char → Bool
  | [] => leadsWith pat []
  | c :: rest => leadsWith pat (c :: rest) || containsSeq pat rest

/-- model of JavaScript `s.includes(pat)`. -/
def jsIncludes (s pat : String) : Bool :=
  containsSeq pat.data s.data

/-- model of JavaScript `s.toLowerCase()` (ASCII case-folding). -/
def jsToLower (s : String) : String :=
  String.mk (s.data.map Char.toLower)

/-- model of JavaScript `header.replace(/["']/g, '')`: remove double and
single quotes (code point 39). -/
def stripQuotes (s : String) : String :=
  String.mk (s.data.filter fun c => !(c == '"' || c == Char.ofNat 39))

/-- result of `detectCSVFormat` (`{format, type}` object in the source). -/
structure FormatGuess where
  format : String
  type : String
deriving DecidableEq, Repr

/-- per-channel fingerprint pushed by `analyzeChannels` in the source. -/
structure ChannelProfile where
  name : String
  index : Nat
  uniqueValues : Nat
  transitions : Nat
  isDigital : Bool
  isClock : Bool
  isData : Bool
deriving DecidableEq, Repr

/-- result of `detectProtocol` (`{protocol, confidence, pins}` object). -/
structure ProtocolGuess where
  protocol : String
  confidence : String
  pins : List String
deriving DecidableEq, Repr

/-- `detectCSVFormat` of `src/public/script.js` (lines 896-911): ordered
substring checks over the joined lower-cased header string. -/
def detectCSVFormat (headers : List String) : FormatGuess :=
  let headerStr := jsToLower (String.intercalate "," headers)
  if jsIncludes headerStr "time" && jsIncludes headerStr "channel" then
    ⟨"Saleae Logic", "standard"⟩
  else if jsIncludes headerStr "sample" || jsIncludes headerStr "logic" then
    ⟨"PulseView/Sigrok", "open_source"⟩
  else if jsIncludes headerStr "timestamp" || jsIncludes headerStr "state" then
    ⟨"Digilent/WaveForms", "digilent"⟩
  else if jsIncludes headerStr "tick" || jsIncludes headerStr "clk" then
    ⟨"Generic/Raw", "raw"⟩
  else
    ⟨"Unknown", "unknown"⟩

/-- the header token of a skipped first column: lower-cased token contains
"time" or "sample" (`analyzeChannels`, line 917). -/
def timeSkip (header : String) : Bool :=
  jsIncludes (jsToLower header) "time" || jsIncludes (jsToLower header) "sample"

/-- `dataLines.slice(1, Math.min(20, dataLines.length))` of the source
(line 923): the sampling window of data rows examined per channel. -/
def windowLines (dataLines : List String) : List String :=
  (dataLines.take (min 20 dataLines.length)).drop 1

/-- `parts[index]?.trim() || '0'` of the source (line 925): the value a row
contributes for column `index`; a missing or blank field yields `"0"`. -/
def colValue (line : String) (index : Nat) : String :=
  let parts := jsSplit ',' line
  match parts[index]? with
  | some v => let t := jsTrim v; if t == "" then "0" else t
  | none => "0"

/-- values of column `index` across the sampling window (the `channelData`
array of the source). -/
def channelData (dataLines : List String) (index : Nat) : List String :=
  (windowLines dataLines).map fun line => colValue line index

/-- adjacent-pair change count (`channelData.filter((val, i) => i > 0 &&
val !== channelData[i-1]).length`). -/
def countTransitions : List String → Nat
  | [] => 0
  | [_] => 0
  | a :: b :: rest => (if a == b then 0 else 1) + countTransitions (b :: rest)

/-- the `ChannelProfile` object pushed for one profiled column
(`analyzeChannels`, lines 921-940). -/
def profileOfColumn (header : String) (index : Nat) (dataLines : List String) :
    ChannelProfile :=
  let cd := channelData dataLines index
  let u := cd.dedup.length
  let t := countTransitions cd
  { name := jsTrim (stripQuotes header)
    index := index
    uniqueValues := u
    transitions := t
    isDigital := decide (u ≤ 4)
    isClock := decide (5 < t)
    isData := decide (0 < t) && decide (t ≤ 10) }

/-- the `headers.forEach((header, index) => ...)` loop of `analyzeChannels`,
with the running column index made explicit. -/
def analyzeChannelsAux (dataLines : List String) : Nat → List String → List ChannelProfile
  | _, [] => []
  | i, h :: hs =>
    if i == 0 && timeSkip h then
      analyzeChannelsAux dataLines (i + 1) hs
    else
      profileOfColumn h i dataLines :: analyzeChannelsAux dataLines (i + 1) hs

/-- `analyzeChannels` of `src/public/script.js` (lines 914-944). -/
def analyzeChannels (headers dataLines : List String) : List ChannelProfile :=
  analyzeChannelsAux dataLines 0 headers

/-- `channels.filter(c => c.isDigital)` (line 947). -/
def digitalOf (channels : List ChannelProfile) : List ChannelProfile :=
  channels.filter fun c => c.isDigital

/-- guard of the I2C branch of `detectProtocol` (lines 949-954):
two digital channels, one clock-like, one data-like-and-not-clock-like. -/
def i2cFires (d : List ChannelProfile) : Bool :=
  d.length == 2 && d.any (fun c => c.isClock) &&
    d.any (fun c => c.isData && !c.isClock)

/-- guard of the SPI branch of `detectProtocol` (lines 958-963):
three to five digital channels, ≥ 1 clock-like, ≥ 2 data-like. -/
def spiFires (d : List ChannelProfile) : Bool :=
  decide (3 ≤ d.length) && decide (d.length ≤ 5) &&
    decide (1 ≤ (d.filter fun c => c.isClock).length) &&
    decide (2 ≤ (d.filter fun c => c.isData).length)

/-- `detectProtocol` of `src/public/script.js` (lines 946-976): the ordered
rule chain over the digital channels. -/
def detectProtocol (channels : List ChannelProfile) : ProtocolGuess :=
  let d := digitalOf channels
  if i2cFires d then
    ⟨"I2C", "High", ["SDA (Data)", "SCL (Clock)"]⟩
  else if spiFires d then
    ⟨"SPI", "High", ["MOSI", "MISO", "SCK", "CS/SS"]⟩
  else if d.length == 1 || d.length == 2 then
    ⟨"UART/Serial", "Medium", ["TX", "RX"]⟩
  else if decide (8 < d.length) then
    ⟨"Parallel/Unknown", "Low", d.enum.map fun p => "Data_" ++ toString p.1⟩
  else
    ⟨"Unknown", "Low", d.enum.map fun p => "Channel_" ++ toString p.1⟩

/-- `lines[0]?.split(',').map(h => h.trim()) || []` of the source
(line 990). -/
def headersOf (lines : List String) : List String :=
  match lines with
  | [] => []
  | l :: _ => (jsSplit ',' l).map jsTrim

/-- `protocol.pins[i] || 'Data Line'` of the report template (line 1009). -/
def pinRoleAt (pins : List String) (i : Nat) : String :=
  match pins[i]? with
  | some p => if p == "" then "Data Line" else p
  | none => "Data Line"

/-- one bullet of the PIN MAPPING ANALYSIS section (line 1009). -/
def pinMappingLine (protocol : ProtocolGuess) (i : Nat) (ch : ChannelProfile) :
    String :=
  "• " ++ ch.name ++ ": " ++ pinRoleAt protocol.pins i ++ " " ++
    (if ch.isClock then "(Clock-like)" else "") ++ " " ++
    (if ch.isData then "(Data)" else "")

/-- `channels.map((ch, i) => ...)` of the PIN MAPPING ANALYSIS section:
one line per profiled channel, pin role indexed by overall position. -/
def pinMappingLines (channels : List ChannelProfile) (protocol : ProtocolGuess) :
    List String :=
  channels.enum.map fun p => pinMappingLine protocol p.1 p.2

/-- one bullet of the SIGNAL CHARACTERISTICS section (line 1012). -/
def signalLine (ch : ChannelProfile) : String :=
  "• " ++ ch.name ++ ": " ++ toString ch.transitions ++ " transitions, " ++
    toString ch.uniqueValues ++ " unique states" ++
    (if ch.isDigital then " (Digital)" else " (Analog/Mixed)")

/-- the report template literal of `getEnhancedMockAnalysis`
(lines 995-1035), with every interpolation made explicit. -/
def renderReport (lines headers : List String) (format : FormatGuess)
    (channels : List ChannelProfile) (protocol : ProtocolGuess) : String :=
  "PULSEAI DETAILED ANALYSIS REPORT\n" ++
  String.mk (List.replicate 50 '=') ++ "\n\n" ++
  "FILE METADATA:\n" ++
  "• Analyzer Format: " ++ format.format ++ "\n" ++
  "• Total Samples: " ++ toString ((lines.length : Int) - 1) ++ "\n" ++
  "• Data Channels: " ++ toString channels.length ++ "\n" ++
  "• Time Column: " ++
    (match headers with
     | [] => "None"
     | h :: _ => if h == "" then "None" else h) ++ "\n\n" ++
  "DETECTED PROTOCOL:\n" ++
  "• Protocol: " ++ protocol.protocol ++ "\n" ++
  "• Confidence: " ++ protocol.confidence ++ "\n" ++
  "• Type: " ++
    (if format.type == "standard" then "Standard Logic Analyzer"
     else "Custom Format") ++ "\n\n" ++
  "PIN MAPPING ANALYSIS:\n" ++
  String.intercalate "\n" (pinMappingLines channels protocol) ++ "\n\n" ++
  "SIGNAL CHARACTERISTICS:\n" ++
  String.intercalate "\n" (channels.map signalLine) ++ "\n\n" ++
  "ESTIMATED DEVICES:\n" ++
  "• Primary: " ++
    (if protocol.protocol == "I2C" then "I2C Master (Microcontroller)"
     else if protocol.protocol == "SPI" then "SPI Master"
     else "Unknown Master") ++ "\n" ++
  "• Secondary: " ++
    (if decide (1 < channels.length) then "Connected peripheral(s) detected"
     else "No secondary device detected") ++ "\n\n" ++
  "TIMING ANALYSIS:\n" ++
  "• Sample Rate: Estimated from time column\n" ++
  "• Bus Speed: " ++
    (if protocol.protocol == "I2C" then "Standard (100kHz) or Fast (400kHz)"
     else if protocol.protocol == "SPI" then "Variable, check clock frequency"
     else "Unknown") ++ "\n\n" ++
  "RECOMMENDATIONS:\n" ++
  "1. Verify protocol settings match device datasheets\n" ++
  "2. Check signal integrity and voltage levels\n" ++
  "3. Confirm device addresses for I2C devices\n" ++
  "4. Review timing constraints for reliable communication\n\n" ++
  "NOTE: This analysis is based on signal patterns. For device-specific " ++
  "identification, additional signature analysis may be required."

/-- pipeline of `getEnhancedMockAnalysis` run from the raw line list
(the value of `csvContent.split('\n')`). -/
def classifyLines (rawLines : List String) : String :=
  let lines := rawLines.filter fun l => jsTrim l != ""
  let headers := headersOf lines
  let format := detectCSVFormat headers
  let channels := analyzeChannels headers lines
  let protocol := detectProtocol channels
  renderReport lines headers format channels protocol

/-- `getEnhancedMockAnalysis` of `src/public/script.js` (lines 988-1035):
split on newlines, drop blank lines, run the pipeline, render the report. -/
def getEnhancedMockAnalysis (csvContent : String) : String :=
  classifyLines (jsSplit '\n' csvContent)

namespace FnsServer

/-- `detectCSVFormat` of `src/functions/server.js` (lines 134-144): only the
Saleae and PulseView rules are present. -/
def detectCSVFormat (headers : List String) : FormatGuess :=
  let headerStr := jsToLower (String.intercalate "," headers)
  if jsIncludes headerStr "time" && jsIncludes headerStr "channel" then
    ⟨"Saleae Logic", "standard"⟩
  else if jsIncludes headerStr "sample" || jsIncludes headerStr "logic" then
    ⟨"PulseView/Sigrok", "open_source"⟩
  else
    ⟨"Unknown", "unknown"⟩

/-- the `headers.forEach` loop of `analyzeChannels` in
`src/functions/server.js` (lines 146-176); its body is identical to the
`src/public/script.js` one. -/
def analyzeChannelsAux (dataLines : List String) : Nat → List String → List ChannelProfile
  | _, [] => []
  | i, h :: hs =>
    if i == 0 && timeSkip h then
      analyzeChannelsAux dataLines (i + 1) hs
    else
      profileOfColumn h i dataLines :: analyzeChannelsAux dataLines (i + 1) hs

/-- `analyzeChannels` of `src/functions/server.js`. -/
def analyzeChannels (headers dataLines : List String) : List ChannelProfile :=
  analyzeChannelsAux dataLines 0 headers

/-- `detectProtocol` of `src/functions/server.js` (lines 178-199): the I2C
and SPI rules of the script variant, then an unconditional UART fallback. -/
def detectProtocol (channels : List ChannelProfile) : ProtocolGuess :=
  let d := digitalOf channels
  if i2cFires d then
    ⟨"I2C", "High", ["SDA (Data)", "SCL (Clock)"]⟩
  else if spiFires d then
    ⟨"SPI", "High", ["MOSI", "MISO", "SCK", "CS/SS"]⟩
  else
    ⟨"UART/Serial", "Medium", ["TX", "RX"]⟩

end FnsServer

/-- construct a `ChannelProfile` record with the boolean fields derived from
`uniqueValues` and `transitions` exactly the way `analyzeChannels` derives
them (lines 933-939 of `src/public/script.js`). -/
def mkChannel (name : String) (index uniqueValues transitions : Nat) :
    ChannelProfile :=
  { name := name
    index := index
    uniqueValues := uniqueValues
    transitions := transitions
    isDigital := decide (uniqueValues ≤ 4)
    isClock := decide (5 < transitions)
    isData := decide (0 < transitions) && decide (transitions ≤ 10) }

theorem enum_map_fst_comp {α β : Type} (f : Nat → β) (l : List α) :
    (l.enum.map fun p => f p.1) = (List.range l.length).map f := by
  have h1 : (l.enum.map fun p => f p.1) = (l.enum.map Prod.fst).map f := by
    rw [List.map_map]
    rfl
  rw [h1, List.enum_map_fst]

/-- Claim C1: for every sequence of `ChannelProfile`s whose digital subset
has exactly two members, at least one of them clock-like and at least one
(necessarily different) data-like and not clock-like, `detectProtocol`
returns protocol I2C with confidence High and the fixed pin-role list
`["SDA (Data)", "SCL (Clock)"]`. -/
theorem c1_i2c_rule (channels : List ChannelProfile)
    (h2 : (digitalOf channels).length = 2)
    (hclk : ∃ c ∈ digitalOf channels, c.isClock = true)
    (hdat : ∃ c ∈ digitalOf channels, c.isData = true ∧ c.isClock = false) :
    detectProtocol channels = ⟨"I2C", "High", ["SDA (Data)", "SCL (Clock)"]⟩ := by
  have hfire : i2cFires (digitalOf channels) = true := by
    obtain ⟨c, hc, hcc⟩ := hclk
    obtain ⟨d, hd, hd1, hd2⟩ := hdat
    simp only [i2cFires, List.any_eq_true, Bool.and_eq_true, beq_iff_eq]
    refine ⟨⟨h2, c, hc, hcc⟩, d, hd, ?_⟩
    simp [hd1, hd2]
  simp [detectProtocol, hfire]

/-- capture of the C1 test: header `Time,SCL,SDA`, eleven data rows on
which SCL makes 10 transitions and SDA makes 3, both with two distinct
values. -/
def exCaptureC1 : List String :=
  ["Time,SCL,SDA",
   "t,0,0", "t,1,0", "t,0,0", "t,1,1", "t,0,1", "t,1,1",
   "t,0,0", "t,1,0", "t,0,0", "t,1,1", "t,0,1"]

/-- witness for C1: the concrete capture named by the claim produces the
I2C/High guess. -/
theorem c1_i2c_rule_witness :
    detectProtocol (analyzeChannels ["Time", "SCL", "SDA"] exCaptureC1)
      = ⟨"I2C", "High", ["SDA (Data)", "SCL (Clock)"]⟩ :=
  c1_i2c_rule _ (by decide) (by decide) (by decide)

/-- Claim C2: for every sequence of `ChannelProfile`s whose digital subset
has between 3 and 5 members, at least 1 of them clock-like and at least 2
data-like, and on which the I2C rule did not fire, `detectProtocol` returns
SPI with confidence High and pin roles `["MOSI", "MISO", "SCK", "CS/SS"]`. -/
theorem c2_spi_rule (channels : List ChannelProfile)
    (hni : i2cFires (digitalOf channels) = false)
    (h3 : 3 ≤ (digitalOf channels).length)
    (h5 : (digitalOf channels).length ≤ 5)
    (hclk : 1 ≤ ((digitalOf channels).filter fun c => c.isClock).length)
    (hdat : 2 ≤ ((digitalOf channels).filter fun c => c.isData).length) :
    detectProtocol channels = ⟨"SPI", "High", ["MOSI", "MISO", "SCK", "CS/SS"]⟩ := by
  have hfire : spiFires (digitalOf channels) = true := by
    simp [spiFires, h3, h5, hclk, hdat]
  simp [detectProtocol, hni, hfire]

/-- four digital channels of which exactly one is clock-like and exactly
two are data-like (the SPI test of the spec). -/
def exChannelsC2 : List ChannelProfile :=
  [mkChannel "CH1" 0 2 8, mkChannel "CH2" 1 2 2,
   mkChannel "CH3" 2 2 0, mkChannel "CH4" 3 2 0]

/-- witness for C2: four digital channels, one clock-like, two data-like,
give the SPI/High guess. -/
theorem c2_spi_rule_witness :
    detectProtocol exChannelsC2 = ⟨"SPI", "High", ["MOSI", "MISO", "SCK", "CS/SS"]⟩ :=
  c2_spi_rule exChannelsC2 (by decide) (by decide) (by decide) (by decide) (by decide)

/-- Claim C3: when neither the I2C rule nor the SPI rule fires,
`detectProtocol` dispatches in order: 1 or 2 digital channels give
UART/Serial (Medium, `["TX", "RX"]`), more than 8 give Parallel/Unknown
(Low, `Data_0..Data_{n-1}`, one per digital channel), anything else gives
Unknown (Low, `Channel_0..Channel_{n-1}`). -/
theorem c3_fallback_rules (channels : List ChannelProfile)
    (hni : i2cFires (digitalOf channels) = false)
    (hns : spiFires (digitalOf channels) = false) :
    detectProtocol channels =
      (if (digitalOf channels).length = 1 ∨ (digitalOf channels).length = 2 then
        ⟨"UART/Serial", "Medium", ["TX", "RX"]⟩
      else if 8 < (digitalOf channels).length then
        ⟨"Parallel/Unknown", "Low",
          (List.range (digitalOf channels).length).map fun i => "Data_" ++ toString i⟩
      else
        ⟨"Unknown", "Low",
          (List.range (digitalOf channels).length).map fun i => "Channel_" ++ toString i⟩) := by
  by_cases h12 : (digitalOf channels).length = 1 ∨ (digitalOf channels).length = 2
  · have hb : ((digitalOf channels).length == 1 || (digitalOf channels).length == 2) = true := by
      rcases h12 with h | h <;> simp [h]
    simp [detectProtocol, hni, hns, hb, h12]
  · have hb : ((digitalOf channels).length == 1 || (digitalOf channels).length == 2) = false := by
      rcases not_or.mp h12 with ⟨ha, hc⟩
      simp [ha, hc]
    by_cases h8 : 8 < (digitalOf channels).length
    · have hd := enum_map_fst_comp (fun i => "Data_" ++ toString i) (digitalOf channels)
      simp [detectProtocol, hni, hns, hb, h12, h8, hd]
    · have hc := enum_map_fst_comp (fun i => "Channel_" ++ toString i) (digitalOf channels)
      simp [detectProtocol, hni, hns, hb, h12, h8, hc]

/-- nine digital channels with no transitions at all. -/
def exChannelsC3 : List ChannelProfile :=
  (List.range 9).map fun i => mkChannel ("C" ++ toString i) i 2 0

/-- witness for C3: nine quiet digital channels fall through to the
Parallel/Unknown branch with synthesized `Data_0..Data_8` pin roles. -/
theorem c3_fallback_rules_witness :
    detectProtocol exChannelsC3 =
      ⟨"Parallel/Unknown", "Low",
        ["Data_0", "Data_1", "Data_2", "Data_3", "Data_4",
         "Data_5", "Data_6", "Data_7", "Data_8"]⟩ := by
  rw [c3_fallback_rules exChannelsC3 (by decide) (by decide)]
  decide

theorem windowLines_take20 (lines : List String) :
    windowLines (lines.take 20) = windowLines lines := by
  rcases le_or_lt lines.length 20 with h | h
  · rw [List.take_of_length_le h]
  · unfold windowLines
    have h1 : (List.take 20 lines).length = 20 := by
      rw [List.length_take]
      omega
    have h2 : min 20 lines.length = 20 := by omega
    rw [h1, h2, List.take_take]
    simp

theorem channelData_take20 (lines : List String) (i : Nat) :
    channelData (lines.take 20) i = channelData lines i := by
  unfold channelData
  rw [windowLines_take20]

theorem profileOfColumn_take20 (h : String) (i : Nat) (lines : List String) :
    profileOfColumn h i (lines.take 20) = profileOfColumn h i lines := by
  unfold profileOfColumn
  rw [channelData_take20]

theorem analyzeChannelsAux_take20 (lines : List String) (headers : List String) :
    ∀ i, analyzeChannelsAux (lines.take 20) i headers = analyzeChannelsAux lines i headers := by
  induction headers with
  | nil => intro i; rfl
  | cons h hs ih =>
    intro i
    simp only [analyzeChannelsAux, profileOfColumn_take20, ih]

theorem windowLines_eq_take19 (lines : List String) :
    windowLines lines = (lines.drop 1).take 19 := by
  unfold windowLines
  rw [List.drop_take]
  rcases le_or_lt lines.length 20 with h | h
  · have h1 : min 20 lines.length - 1 = lines.length - 1 := by omega
    rw [h1, List.take_of_length_le (by rw [List.length_drop]),
      List.take_of_length_le (by rw [List.length_drop]; omega)]
  · have h1 : min 20 lines.length - 1 = 19 := by omega
    rw [h1]

/-- Claim C4 (amended): each profiled channel is computed over exactly the
first `min(19, rowCount)` data rows — the source slices
`dataLines.slice(1, min(20, dataLines.length))` where `dataLines` still
contains the header line, so the window is `(lines.drop 1).take 19`, and
data rows beyond the capture's first 20 lines never influence any
profile. -/
theorem c4_sampling_window :
    (∀ headers lines, analyzeChannels headers lines = analyzeChannels headers (lines.take 20)) ∧
    (∀ lines : List String, windowLines lines = (lines.drop 1).take 19) :=
  ⟨fun headers lines => (analyzeChannelsAux_take20 lines headers 0).symm,
   windowLines_eq_take19⟩

/-- capture with a header line and exactly 20 data rows; the 20th data row
holds the only occurrence of the value "1" in column 1. -/
def exLinesC4 : List String :=
  "Time,A" :: (List.replicate 19 "t,0" ++ ["t,1"])

/-- Claim C4 counterexample: the capture `exLinesC4` has `rowCount = 20`,
so the claimed window `min(20, rowCount)` covers all 20 data rows and
contains 2 distinct values in channel A, yet `analyzeChannels` reports a
distinct-value count of 1 — the 20th data row, inside the claimed window,
never influences the profile. -/
theorem c4_sampling_window_counterexample :
    (exLinesC4.drop 1).length = 20 ∧
    (analyzeChannels ["Time", "A"] exLinesC4).map (fun p => p.uniqueValues) = [1] ∧
    (((exLinesC4.drop 1).take (min 20 (exLinesC4.drop 1).length)).map
        (fun l => colValue l 1)).dedup.length = 2 :=
  ⟨by decide, by decide, by decide⟩

theorem analyzeChannelsAux_of_pos (lines : List String) (hs : List String) :
    ∀ i, 1 ≤ i →
      analyzeChannelsAux lines i hs
        = (List.enumFrom i hs).map fun p => profileOfColumn p.2 p.1 lines := by
  induction hs with
  | nil => intro i _; rfl
  | cons h t ih =>
    intro i hi
    have hz : (i == 0) = false := by
      simp only [beq_eq_false_iff_ne, ne_eq]
      omega
    simp only [analyzeChannelsAux, hz, Bool.false_and, if_neg Bool.false_ne_true,
      List.enumFrom, List.map_cons, ih (i + 1) (by omega)]

/-- Claim C5: `analyzeChannels` omits the first column exactly when the
first header token, case-folded, contains "time" or "sample"; otherwise the
first column is profiled like any other channel, and every column at index
greater than 0 is always profiled, whatever its header token. -/
theorem c5_first_column_policy (h0 : String) (hs : List String) (lines : List String) :
    analyzeChannels (h0 :: hs) lines =
      (if timeSkip h0 then [] else [profileOfColumn h0 0 lines]) ++
        (List.enumFrom 1 hs).map fun p => profileOfColumn p.2 p.1 lines := by
  unfold analyzeChannels
  cases hts : timeSkip h0 with
  | false =>
    simp only [analyzeChannelsAux, hts, Bool.and_false, if_neg Bool.false_ne_true,
      Bool.false_eq_true, if_false, List.singleton_append,
      analyzeChannelsAux_of_pos lines hs 1 (by omega)]
  | true =>
    simp only [analyzeChannelsAux, hts, Bool.and_true, beq_self_eq_true, if_pos rfl,
      if_true, List.nil_append, analyzeChannelsAux_of_pos lines hs 1 (by omega)]

/-- Claim C6: a ragged data row inside the sampling window never raises an
error — `colValue` is total — and every channel whose field is missing in
that row receives the literal value `"0"` in its sampling window. -/
theorem c6_ragged_rows (lines : List String) (index : Nat) (line : String)
    (hmem : line ∈ windowLines lines)
    (hrag : (jsSplit ',' line).length ≤ index) :
    colValue line index = "0" ∧ "0" ∈ channelData lines index := by
  have h0 : colValue line index = "0" := by
    simp only [colValue, List.getElem?_eq_none hrag]
  refine ⟨h0, ?_⟩
  unfold channelData
  exact h0 ▸ List.mem_map_of_mem (fun l => colValue l index) hmem

/-- witness for C6: the ragged row `"1"` of a two-column capture sits in
the window and contributes `"0"` to the second channel. -/
theorem c6_ragged_rows_witness :
    colValue "1" 1 = "0" ∧ "0" ∈ channelData ["h1,h2", "1", "2,3"] 1 :=
  c6_ragged_rows ["h1,h2", "1", "2,3"] 1 "1" (by decide) (by decide)

/-- Claim C7: the empty capture does not throw anywhere in the pipeline:
its non-blank line list is empty, `analyzeChannels` yields the empty
profile sequence, `detectProtocol` yields the Unknown guess with zero pin
roles, and `getEnhancedMockAnalysis` still returns the rendered report. -/
theorem c7_empty_capture :
    ((jsSplit '\n' "").filter fun l => jsTrim l != "") = [] ∧
    analyzeChannels (headersOf []) [] = [] ∧
    detectProtocol (analyzeChannels (headersOf []) []) = ⟨"Unknown", "Low", []⟩ ∧
    getEnhancedMockAnalysis ""
      = renderReport [] [] ⟨"Unknown", "unknown"⟩ [] ⟨"Unknown", "Low", []⟩ :=
  ⟨by decide, rfl, by decide, rfl⟩

/-- Claim C8 (amended): pin-role strings are assigned positionally to ALL
profiled channels, digital or not — the i-th profiled channel's PIN MAPPING
line carries `protocol.pins[i]`, falling back to `"Data Line"` once the
role list is exhausted, independent of which channel exhibited the
clock-like or data-like characteristic. -/
theorem c8_positional_pin_roles :
    (∀ (channels : List ChannelProfile) (protocol : ProtocolGuess) (i : Nat)
        (ch : ChannelProfile), channels[i]? = some ch →
        (pinMappingLines channels protocol)[i]? =
          some ("• " ++ ch.name ++ ": " ++ pinRoleAt protocol.pins i ++ " " ++
            (if ch.isClock then "(Clock-like)" else "") ++ " " ++
            (if ch.isData then "(Data)" else ""))) ∧
    (∀ (pins : List String) (i : Nat), pins.length ≤ i →
        pinRoleAt pins i = "Data Line") := by
  constructor
  · intro channels protocol i ch hch
    unfold pinMappingLines
    rw [List.getElem?_map, List.getElem?_enum, hch]
    rfl
  · intro pins i hlen
    simp only [pinRoleAt, List.getElem?_eq_none hlen]

/-- three profiled channels: an analog one first (7 distinct values), then
a clock-like digital one, then a data-like digital one. -/
def exChannelsC8 : List ChannelProfile :=
  [mkChannel "AIN" 1 7 3, mkChannel "CLK" 2 2 8, mkChannel "SDA" 3 2 3]

/-- witness for C8: in `exChannelsC8` the channel at overall position 1
gets pin role `pins[1]`, and a position past the end of the I2C role list
falls back to `"Data Line"`. -/
theorem c8_positional_pin_roles_witness :
    (pinMappingLines exChannelsC8 ⟨"I2C", "High", ["SDA (Data)", "SCL (Clock)"]⟩)[1]? =
      some "• CLK: SCL (Clock) (Clock-like) (Data)" ∧
    pinRoleAt ["SDA (Data)", "SCL (Clock)"] 2 = "Data Line" :=
  ⟨by rw [c8_positional_pin_roles.1 exChannelsC8 ⟨"I2C", "High", ["SDA (Data)", "SCL (Clock)"]⟩
          1 (mkChannel "CLK" 2 2 8) (by decide)]; decide,
   c8_positional_pin_roles.2 ["SDA (Data)", "SCL (Clock)"] 2 (by decide)⟩

/-- pin-role strings rendered for the digital channels, in capture order:
read off the PIN MAPPING lines, the digital channel at overall position `i`
carries `pins[i]`. -/
def renderedDigitalRoles (channels : List ChannelProfile)
    (protocol : ProtocolGuess) : List String :=
  (channels.enum.filter fun p => p.2.isDigital).map fun p => pinRoleAt protocol.pins p.1

/-- pin-role strings the claim predicts: the i-th DIGITAL channel gets the
i-th role of the guess. -/
def claimedDigitalRoles (channels : List ChannelProfile)
    (protocol : ProtocolGuess) : List String :=
  (digitalOf channels).enum.map fun p => pinRoleAt protocol.pins p.1

/-- Claim C8 counterexample: with an analog channel in front of the two
digital ones, `detectProtocol` still guesses I2C, but the first digital
channel's rendered PIN MAPPING line carries `pins[1] = "SCL (Clock)"`, not
`pins[0] = "SDA (Data)"` as the claim predicts — the positional assignment
runs over all profiled channels, not over the digital subset. -/
theorem c8_positional_pin_roles_counterexample :
    detectProtocol exChannelsC8 = ⟨"I2C", "High", ["SDA (Data)", "SCL (Clock)"]⟩ ∧
    pinMappingLines exChannelsC8 (detectProtocol exChannelsC8) =
      ["• AIN: SDA (Data)  (Data)",
       "• CLK: SCL (Clock) (Clock-like) (Data)",
       "• SDA: Data Line  (Data)"] ∧
    renderedDigitalRoles exChannelsC8 (detectProtocol exChannelsC8)
      = ["SCL (Clock)", "Data Line"] ∧
    claimedDigitalRoles exChannelsC8 (detectProtocol exChannelsC8)
      = ["SDA (Data)", "SCL (Clock)"] ∧
    renderedDigitalRoles exChannelsC8 (detectProtocol exChannelsC8)
      ≠ claimedDigitalRoles exChannelsC8 (detectProtocol exChannelsC8) := by
  refine ⟨by decide, by decide, by decide, by decide, by decide⟩

/-- Claim C9 counterexample: the two variants' `detectCSVFormat` differ on
the header `["tick"]` (the functions variant lacks the Generic/Raw rule)
and their `detectProtocol` differ on the empty channel list (the functions
variant falls through to UART unconditionally). -/
theorem c9_variant_equivalence_counterexample :
    detectCSVFormat ["tick"] = ⟨"Generic/Raw", "raw"⟩ ∧
    FnsServer.detectCSVFormat ["tick"] = ⟨"Unknown", "unknown"⟩ ∧
    detectProtocol [] = ⟨"Unknown", "Low", []⟩ ∧
    FnsServer.detectProtocol [] = ⟨"UART/Serial", "Medium", ["TX", "RX"]⟩ ∧
    detectCSVFormat ["tick"] ≠ FnsServer.detectCSVFormat ["tick"] ∧
    detectProtocol [] ≠ FnsServer.detectProtocol [] := by
  refine ⟨by decide, by decide, by decide, by decide, by decide, by decide⟩

/-- Claim C9 (amended): of the three stages, only `analyzeChannels` is
extensionally equal across the two server variants; `detectCSVFormat`
agrees only when one of its two shared rules fires (otherwise the functions
variant degrades to Unknown), and `detectProtocol` agrees whenever the I2C
or the SPI rule fires. -/
theorem c9_variant_equivalence_amended :
    (∀ headers dataLines,
      analyzeChannels headers dataLines = FnsServer.analyzeChannels headers dataLines) ∧
    (∀ headers, FnsServer.detectCSVFormat headers = detectCSVFormat headers ∨
      FnsServer.detectCSVFormat headers = ⟨"Unknown", "unknown"⟩) ∧
    (∀ channels, i2cFires (digitalOf channels) = true →
      detectProtocol channels = FnsServer.detectProtocol channels) ∧
    (∀ channels, spiFires (digitalOf channels) = true →
      detectProtocol channels = FnsServer.detectProtocol channels) := by
  refine ⟨?_, ?_, ?_, ?_⟩
  · intro headers dataLines
    have haux : ∀ hs i, analyzeChannelsAux dataLines i hs
        = FnsServer.analyzeChannelsAux dataLines i hs := by
      intro hs
      induction hs with
      | nil => intro i; rfl
      | cons h t ih =>
        intro i
        simp only [analyzeChannelsAux, FnsServer.analyzeChannelsAux, ih]
    exact haux headers 0
  · intro headers
    simp only [detectCSVFormat, FnsServer.detectCSVFormat]
    split_ifs <;> simp
  · intro channels hfire
    simp [detectProtocol, FnsServer.detectProtocol, hfire]
  · intro channels hfire
    cases hb : i2cFires (digitalOf channels) with
    | false => simp [detectProtocol, FnsServer.detectProtocol, hb, hfire]
    | true => simp [detectProtocol, FnsServer.detectProtocol, hb]

/-- witness for C9 (amended): the two variants agree on the four-channel
SPI configuration `exChannelsC2`. -/
theorem c9_variant_equivalence_amended_witness :
    detectProtocol exChannelsC2 = FnsServer.detectProtocol exChannelsC2 :=
  c9_variant_equivalence_amended.2.2.2 exChannelsC2 (by decide)

/-- insert the line `x` at position `k` of a raw line list. -/
def insertAt (k : Nat) (x : String) (l : List String) : List String :=
  l.take k ++ x :: l.drop k

theorem filter_insertAt (p : String → Bool) (k : Nat) (x : String)
    (l : List String) (hx : p x = false) :
    (insertAt k x l).filter p = l.filter p := by
  unfold insertAt
  rw [List.filter_append, List.filter_cons_of_neg (by simp [hx]),
    ← List.filter_append, List.take_append_drop]

/-- Claim C10: `getEnhancedMockAnalysis` filters out whitespace-only lines
before the header/data split, so the rendered report is invariant under
inserting (equivalently, deleting) a whitespace-only line at any position
of the capture's line list — it contributes no sample row, shifts no
window, and changes no Total Samples count. -/
theorem c10_blank_line_invariance :
    (∀ csvContent : String,
      getEnhancedMockAnalysis csvContent = classifyLines (jsSplit '\n' csvContent)) ∧
    (∀ (rawLines : List String) (k : Nat) (ws : String), jsTrim ws = "" →
      classifyLines (insertAt k ws rawLines) = classifyLines rawLines) := by
  refine ⟨fun _ => rfl, ?_⟩
  intro rawLines k ws hws
  have h := filter_insertAt (fun l => jsTrim l != "") k ws rawLines (by simp [hws])
  unfold classifyLines
  rw [h]

/-- witness for C10: inserting the whitespace-only line `"  "` into a
two-line capture leaves the report unchanged. -/
theorem c10_blank_line_invariance_witness :
    classifyLines (insertAt 1 "  " ["a,b", "1,0"]) = classifyLines ["a,b", "1,0"] :=
  c10_blank_line_invariance.2 ["a,b", "1,0"] 1 "  " (by decide)
